import Mathlib

/-!
Shallow embedding of `src/disk-watchdog.c` (balena-os/disk-watchdogd).

The program is a single-threaded liveness-probe daemon.  The embedding below
translates each C function into a Lean function over an explicit model of its
environment (syscall results), and models the monitor loop as the trace of
notification events it emits.

Machine integers: C `int` is modeled as a mathematical `Int` reduced to the
signed 32-bit range with `toInt32` at every point where the C program stores a
value into an `int` object whose value may exceed that range (the conversion
`uint64_t -> int` and signed multiplication overflow are modeled as
two's-complement wraparound, the behavior of the target GCC/Linux platform).
`uint64_t` values are modeled as `Nat`.
-/

namespace DiskWatchdog

/-- `BUFFER_SIZE` from the source (512 bytes). -/
def BUFFER_SIZE : Nat := 512

/-- `DEFAULT_INTERVAL` from the source (10000 microseconds). -/
def DEFAULT_INTERVAL : Int := 10000

/-- Reduce an integer to the signed 32-bit range by two's-complement
wraparound, as GCC does when a value is converted to `int`. -/
def toInt32 (n : Int) : Int := (n + 2147483648) % 4294967296 - 2147483648

/-- Environment of a single `test_read` call: the results the operating system
returns for each syscall the probe makes.  `reads k` is the return value of
the `k`-th `read(fd, read_buf, BUFFER_SIZE)` call (a `ssize_t`).
`seekSetResult` is the result of the `lseek(fd, 0, SEEK_SET)` call at line 57
of the source; the source discards this value without checking it. -/
structure ProbeWorld where
  memalignOk : Bool
  openOk : Bool
  seekEnd : Int
  seekSetResult : Int
  reads : Nat → Int
  closeOk : Bool

/-- Observable result of one `test_read` call: the returned code, the total
bytes successfully read, the number of `read` calls issued, and the resource
events (whether the buffer was allocated and freed, whether the file was
opened and `close` was called). -/
structure ProbeResult where
  code : Nat
  bytesRead : Nat
  readCalls : Nat
  allocated : Bool
  freed : Bool
  opened : Bool
  closeCalled : Bool
deriving DecidableEq, Repr

/-- Outcome of the read loop of `test_read` (lines 62-82): either an early
return with an error code, the byte offset at which it occurred and the
number of `read` calls made, or normal completion. -/
inductive LoopOut where
  | err (code bytesRead readCalls : Nat)
  | done (bytesRead readCalls : Nat)
deriving DecidableEq, Repr

/-- The `while (bytes_read < aligned_size)` loop of `test_read`.
`bytes_read` starts at 0 and increases by exactly `BUFFER_SIZE` on every
iteration that does not return (the `ret != BUFFER_SIZE` check forces
`ret = 512` before `bytes_read += ret`), and `aligned_size` is a multiple of
`BUFFER_SIZE`, so the loop performs exactly `aligned_size / 512` iterations;
we recurse on that count.  `calls` is the index of the next `read` call and
`bytesRead` the accumulated offset. -/
def read_loop (reads : Nat → Int) : Nat → Nat → Nat → LoopOut
  | calls, bytesRead, 0 => .done bytesRead calls
  | calls, bytesRead, blocks + 1 =>
    let ret := reads calls
    if ret < 0 then .err 4 bytesRead (calls + 1)
    else if ret = 0 then .err 5 bytesRead (calls + 1)
    else if ret ≠ 512 then .err 6 bytesRead (calls + 1)
    else read_loop reads (calls + 1) (bytesRead + 512) blocks

/-- `test_read` (lines 28-92).  Mirrors the source exit paths:
code 1 `posix_memalign` failure, 2 `open` failure, 3 `lseek(SEEK_END)`
failure, 4/5/6 from the read loop, 7 `close` failure, 0 success.
`aligned_size = (file_size / 512) * 512` is consumed in 512-byte chunks,
i.e. `file_size / 512` loop iterations.  Note that `w.seekSetResult`, the
result of the reseek to the start, does not occur on the right-hand side:
line 57 of the source discards it. -/
def test_read (w : ProbeWorld) : ProbeResult :=
  if ¬ w.memalignOk then ⟨1, 0, 0, false, false, false, false⟩
  else if ¬ w.openOk then ⟨2, 0, 0, true, true, false, false⟩
  else if w.seekEnd < 0 then ⟨3, 0, 0, true, true, true, true⟩
  else
    let file_size : Nat := w.seekEnd.toNat
    match read_loop w.reads 0 0 (file_size / 512) with
    | .err c b k => ⟨c, b, k, true, true, true, true⟩
    | .done b k =>
      if ¬ w.closeOk then ⟨7, b, k, true, true, true, true⟩
      else ⟨0, b, k, true, true, true, true⟩

/-! ### Argument parsing -/

/-- Value of the leading run of decimal digits of `cs`, accumulating into
`acc`; stops at the first non-digit (the semantics of `strtol` after sign
handling). -/
def digitsVal : List Char → Nat → Nat
  | c :: cs, acc => if c.isDigit then digitsVal cs (acc * 10 + (c.toNat - 48)) else acc
  | [], acc => acc

/-- The whitespace characters `isspace` accepts in the C locale. -/
def isSpaceC (c : Char) : Bool :=
  c = ' ' || c = '\t' || c = '\n' || c = '\x0b' || c = '\x0c' || c = '\r'

/-- Drop the leading whitespace, as `strtol` does. -/
def skipSpaces : List Char → List Char
  | c :: cs => if isSpaceC c then skipSpaces cs else c :: cs
  | [] => []

/-- Mathematical value parsed by `strtol(s, NULL, 10)` before range clamping:
optional sign followed by a digit run (0 if no digits). -/
def strtolVal : List Char → Int
  | '-' :: cs => - (digitsVal cs 0 : Int)
  | '+' :: cs => (digitsVal cs 0 : Int)
  | cs => (digitsVal cs 0 : Int)

/-- C library `atoi`, i.e. `(int)strtol(s, NULL, 10)` (glibc): skip
whitespace, parse an optional sign and a digit run, clamp to the `long`
range, convert to `int` (modeled as two's-complement wraparound).  For any
string whose parsed value fits in 32 bits this is exactly that value. -/
def atoi (s : String) : Int :=
  toInt32 (max (-9223372036854775808) (min (strtolVal (skipSpaces s.data)) 9223372036854775807))

/-- The `case 'i'` branch of `parse_args` (lines 131-137):
`interval_us = atoi(optarg) * 1000` stored into an `int` (signed overflow
modeled as wraparound), rejected with a fatal error when the stored value is
`<= 0`. -/
def parse_interval_arg (s : String) : Option Int :=
  let iv := toInt32 (atoi s * 1000)
  if iv ≤ 0 then none else some iv

/-- One `getopt_long` token of the command line, as dispatched by the
`switch` in `parse_args`: a recognized option (with its argument when it
takes one) or an unrecognized option (the `default` case). -/
inductive Arg where
  | file (path : String)
  | interval (ms : String)
  | verbose
  | debug
  | help
  | unknown
deriving DecidableEq, Repr

/-- The configuration globals of the source (`test_file`, `interval_us`,
`verbose_mode`, `debug_mode`), threaded explicitly. -/
structure Config where
  test_file : Option String
  interval_us : Int
  verbose_mode : Bool
  debug_mode : Bool
deriving DecidableEq, Repr

/-- Initial values of the configuration globals (lines 16-19). -/
def initConfig : Config := ⟨none, DEFAULT_INTERVAL, false, false⟩

/-- Result of `parse_args`: `exitHelp` is the `exit(0)` in the `case 'h'`
branch, `fail` is `return -1` (which makes `main` return 1), `ok` is
`return 0` with the final configuration. -/
inductive ParseOut where
  | exitHelp
  | fail
  | ok (c : Config)
deriving DecidableEq, Repr

/-- The `while (getopt_long(...))` loop of `parse_args` (lines 122-152),
processing the option tokens in order.  `strdup` for `--file` is assumed to
succeed (its failure path also returns -1 and is not reached in any claim). -/
def opt_loop : Config → List Arg → ParseOut
  | c, [] => .ok c
  | c, .file p :: rest => opt_loop { c with test_file := some p } rest
  | c, .interval s :: rest =>
    match parse_interval_arg s with
    | none => .fail
    | some iv => opt_loop { c with interval_us := iv } rest
  | c, .verbose :: rest => opt_loop { c with verbose_mode := true } rest
  | c, .debug :: rest => opt_loop { c with debug_mode := true, verbose_mode := true } rest
  | _, .help :: _ => .exitHelp
  | _, .unknown :: _ => .fail

/-- `parse_args` (lines 110-186).  `wd` models `sd_watchdog_enabled`: it is
`some T` when the call returns a positive value with `watchdog_usec = T`
(`T : Nat` models the `uint64_t`), `none` when no watchdog is configured or
the query fails.  After the option loop: missing `--file` is fatal; then,
unless debug mode is set and the watchdog is enabled, `interval_us` is
overwritten with `watchdog_usec / 2` (`uint64_t` division, then conversion
to `int` modeled as wraparound).  The `LOG_VERBOSE` calls are output only
and not modeled. -/
def parse_args (args : List Arg) (wd : Option Nat) : ParseOut :=
  match opt_loop initConfig args with
  | .ok c =>
    if c.test_file = none then .fail
    else if ¬ c.debug_mode then
      match wd with
      | some t => .ok { c with interval_us := toInt32 ((t / 2 : Nat) : Int) }
      | none => .ok c
    else .ok c
  | r => r

/-! ### File precondition check and monitor loop -/

/-- The `stat` view of the target path that `check_test_file` consults:
whether `stat` succeeds, whether `S_ISREG(st.st_mode)` holds, and
`st.st_size`. -/
structure FileStat where
  statOk : Bool
  isReg : Bool
  size : Nat
deriving DecidableEq, Repr

/-- `check_test_file` (lines 188-207): -1 when the path cannot be stat'ed,
is not a regular file, or is empty; 0 otherwise. -/
def check_test_file (st : FileStat) : Int :=
  if ¬ st.statOk then -1
  else if ¬ st.isReg then -1
  else if st.size = 0 then -1
  else 0

/-- The supervisor-visible notifications and error-stream diagnostics the
monitor emits: `sd_notify(0, "READY=1")`, `sd_notify(0, "WATCHDOG=1")`, and
the failure log for a nonzero probe code. -/
inductive Event where
  | notifyReady
  | notifyHeartbeat
  | logFailure (code : Nat)
deriving DecidableEq, Repr

/-- Events of one loop iteration body (lines 239-250): a nonzero probe code
logs the failure and sends nothing; code 0 sends the heartbeat unless debug
mode is set. -/
def loop_iter (debug : Bool) (readResult : Nat) : List Event :=
  if readResult ≠ 0 then [.logFailure readResult]
  else if ¬ debug then [.notifyHeartbeat]
  else []

/-- One iteration as a transition on the `running` flag: the body never
writes `running` (only the signal handler does), so the state is returned
unchanged alongside the iteration's events. -/
def loop_step (debug : Bool) (running_flag : Bool) (w : ProbeWorld) : Bool × List Event :=
  (running_flag, loop_iter debug (test_read w).code)

/-- The `while (running)` loop (lines 236-253): one iteration per probe
world in `worlds`, which models the successive syscall environments seen
before the termination signal flips `running`. -/
def monitor_loop (debug : Bool) (worlds : List ProbeWorld) : List Event :=
  (worlds.map fun w => loop_iter debug (test_read w).code).flatten

/-- The startup notification (lines 228-231): `READY=1` unless debug mode. -/
def startup_events (debug : Bool) : List Event :=
  if ¬ debug then [.notifyReady] else []

/-- Events emitted from the ready notification onward, for a run that
reaches the loop. -/
def run_loop_events (debug : Bool) (worlds : List ProbeWorld) : List Event :=
  startup_events debug ++ monitor_loop debug worlds

/-- Observable outcome of a whole process run: exit code, emitted events,
and the number of monitor-loop iterations executed. -/
structure MainResult where
  exitCode : Int
  events : List Event
  iterations : Nat
deriving DecidableEq, Repr

/-- `main` (lines 209-258): parse (help exits 0, failure exits 1), check the
test file (failure exits 1 before any notification or iteration), then
notify ready and run the loop until the signal; normal shutdown exits 0. -/
def main_run (args : List Arg) (wd : Option Nat) (st : FileStat)
    (worlds : List ProbeWorld) : MainResult :=
  match parse_args args wd with
  | .exitHelp => ⟨0, [], 0⟩
  | .fail => ⟨1, [], 0⟩
  | .ok c =>
    if check_test_file st < 0 then ⟨1, [], 0⟩
    else ⟨0, run_loop_events c.debug_mode worlds, worlds.length⟩

/-! ### Lemmas about the read loop -/

/-- If every `read` call up to `n` blocks returns a full 512-byte block, the
loop completes, having read `512 * n` further bytes in `n` further calls. -/
theorem read_loop_ok_of_all (reads : Nat → Int) :
    ∀ (n k b : Nat), (∀ j, j < n → reads (k + j) = 512) →
      read_loop reads k b n = LoopOut.done (b + 512 * n) (k + n) := by
  intro n
  induction n with
  | zero => intro k b _; simp [read_loop]
  | succ m ih =>
    intro k b h
    have h0 : reads k = 512 := by simpa using h 0 (Nat.succ_pos m)
    have hrec := ih (k + 1) (b + 512) (fun j hj => by
      have hj' : j + 1 < m + 1 := Nat.succ_lt_succ hj
      have := h (j + 1) hj'
      have hkj : k + (j + 1) = k + 1 + j := by omega
      rwa [hkj] at this)
    simp only [read_loop, h0]
    norm_num
    rw [hrec]
    congr 1 <;> omega

/-- If the loop completes normally then every `read` call it made returned a
full block, and the final offset and call count are determined. -/
theorem read_loop_done_inv (reads : Nat → Int) :
    ∀ (n k b b' k' : Nat), read_loop reads k b n = LoopOut.done b' k' →
      (∀ j, j < n → reads (k + j) = 512) ∧ b' = b + 512 * n ∧ k' = k + n := by
  intro n
  induction n with
  | zero =>
    intro k b b' k' h
    simp [read_loop] at h
    exact ⟨by omega, by omega, by omega⟩
  | succ m ih =>
    intro k b b' k' h
    simp only [read_loop] at h
    split_ifs at h with h1 h2 h3
    have h0 : reads k = 512 := by
      push_neg at h3
      exact h3
    obtain ⟨hall, hb, hk⟩ := ih (k + 1) (b + 512) b' k' h
    refine ⟨?_, by omega, by omega⟩
    intro j hj
    cases j with
    | zero => simpa using h0
    | succ i =>
      have : k + 1 + i = k + (i + 1) := by omega
      rw [← this]
      exact hall i (by omega)

/-- If the loop returns early, its error code is 4, 5 or 6 and classifies
the result of the last `read` call it made (index `k' - 1`). -/
theorem read_loop_err_inv (reads : Nat → Int) :
    ∀ (n k b c b' k' : Nat), read_loop reads k b n = LoopOut.err c b' k' →
      1 ≤ k' ∧
      ((c = 4 ∧ reads (k' - 1) < 0) ∨
       (c = 5 ∧ reads (k' - 1) = 0) ∨
       (c = 6 ∧ 0 < reads (k' - 1) ∧ reads (k' - 1) ≠ 512)) := by
  intro n
  induction n with
  | zero => intro k b c b' k' h; simp [read_loop] at h
  | succ m ih =>
    intro k b c b' k' h
    simp only [read_loop] at h
    split_ifs at h with h1 h2 h3
    · obtain ⟨hc, hb, hk⟩ := LoopOut.err.inj h
      subst hc hk
      exact ⟨by omega, Or.inl ⟨rfl, by simpa using h1⟩⟩
    · obtain ⟨hc, hb, hk⟩ := LoopOut.err.inj h
      subst hc hk
      exact ⟨by omega, Or.inr (Or.inl ⟨rfl, by simpa using h2⟩)⟩
    · obtain ⟨hc, hb, hk⟩ := LoopOut.err.inj h
      subst hc hk
      refine ⟨by omega, Or.inr (Or.inr ⟨rfl, ?_, by simpa using h3⟩)⟩
      simp only [Nat.add_sub_cancel]
      omega
    · exact ih (k + 1) (b + 512) c b' k' h

/-! ### Concrete probe worlds used to instantiate the theorems -/

/-- A fully healthy environment for a 700-byte file: every syscall succeeds
and every `read` delivers a full 512-byte block. -/
def w_all_ok_700 : ProbeWorld := ⟨true, true, 700, 0, fun _ => 512, true⟩

/-- A healthy environment for a 100-byte file whose `read`, if it were ever
called, would fail. -/
def w_small_100 : ProbeWorld := ⟨true, true, 100, 0, fun _ => -1, true⟩

/-- An environment in which the reseek to the start (line 57) fails and the
file offset therefore stays at the end, so every `read` returns 0. -/
def w_reseek_fail : ProbeWorld := ⟨true, true, 512, -1, fun _ => 0, true⟩

/-- An environment in which the size-determining `lseek(fd, 0, SEEK_END)`
fails. -/
def w_seekend_fail : ProbeWorld := ⟨true, true, -1, 0, fun _ => 512, true⟩

/-- An environment in which `open` fails. -/
def w_open_fail : ProbeWorld := ⟨true, false, 0, 0, fun _ => 512, false⟩

/-- An environment in which `posix_memalign` fails. -/
def w_alloc_fail : ProbeWorld := ⟨false, true, 0, 0, fun _ => 512, true⟩

/-! ### Claims about the prober -/

/-- C3: for a readable regular file of size `S` not a multiple of 512, a
probe in which every read delivers a full block reads exactly
`S / 512 * 512` bytes in total and returns the success outcome; the
trailing block of fewer than 512 bytes is skipped and not treated as an
error. -/
theorem C3_trailing_block_skipped (w : ProbeWorld) (S : Nat)
    (hma : w.memalignOk = true) (hop : w.openOk = true)
    (hse : w.seekEnd = (S : Int)) (_hS : S % 512 ≠ 0)
    (hrd : ∀ i, w.reads i = 512) (hcl : w.closeOk = true) :
    (test_read w).code = 0 ∧ (test_read w).bytesRead = S / 512 * 512 := by
  have hnn : ¬ w.seekEnd < 0 := by rw [hse]; exact not_lt.mpr (Int.ofNat_nonneg S)
  have htn : w.seekEnd.toNat = S := by rw [hse]; exact Int.toNat_ofNat S
  have hloop := read_loop_ok_of_all w.reads (S / 512) 0 0 (fun j _ => hrd (0 + j))
  simp only [test_read, hma, hop, hnn, htn, not_true, Bool.not_eq_true,
    if_false, if_true, hloop, hcl]
  simp [hloop, hcl, Nat.mul_comm]

/-- Witness for C3 at a 700-byte file: the probe succeeds having read
exactly 512 bytes. -/
theorem C3_witness :
    (test_read w_all_ok_700).code = 0 ∧ (test_read w_all_ok_700).bytesRead = 700 / 512 * 512 :=
  C3_trailing_block_skipped w_all_ok_700 700 rfl rfl rfl (by decide) (fun _ => rfl) rfl

/-- C4: for a target file smaller than one 512-byte buffer (and allocation,
open, the size-determining seek and close all succeeding), the aligned size
is 0, no `read` call is issued, and the probe reports success. -/
theorem C4_small_file_no_read (w : ProbeWorld)
    (hma : w.memalignOk = true) (hop : w.openOk = true)
    (h0 : 0 ≤ w.seekEnd) (hlt : w.seekEnd < 512) (hcl : w.closeOk = true) :
    test_read w = ⟨0, 0, 0, true, true, true, true⟩ := by
  have hnn : ¬ w.seekEnd < 0 := not_lt.mpr h0
  have htn : w.seekEnd.toNat / 512 = 0 := by
    apply Nat.div_eq_of_lt
    omega
  simp [test_read, hma, hop, hnn, htn, read_loop, hcl]

/-- Witness for C4 at a 100-byte file whose reads would fail if issued: the
probe succeeds with 0 bytes read and 0 read calls. -/
theorem C4_witness : test_read w_small_100 = ⟨0, 0, 0, true, true, true, true⟩ :=
  C4_small_file_no_read w_small_100 rfl rfl (by decide) (by decide) rfl

/-- C5 counterexample: in an environment where the reseek back to the start
fails (its result is negative) while everything else behaves normally — the
offset stays at the end, so the next read sees end-of-file — the probe
returns outcome 5 (unexpected end-of-file), not the seek-failure outcome 3:
the source discards the result of `lseek(fd, 0, SEEK_SET)` at line 57
without checking it. -/
theorem C5_counterexample :
    w_reseek_fail.seekSetResult < 0 ∧
    (test_read w_reseek_fail).code = 5 ∧ (test_read w_reseek_fail).code ≠ 3 := by
  refine ⟨by decide, ?_, ?_⟩ <;> decide

/-- C5 amended: a failure of the size-determining seek to the end causes
outcome 3 after closing the descriptor and releasing the buffer, but the
result of the reseek back to the start is discarded unchecked, so its value
never affects the probe's result. -/
theorem C5_seek_failure (w : ProbeWorld) :
    (w.memalignOk = true → w.openOk = true → w.seekEnd < 0 →
      test_read w = ⟨3, 0, 0, true, true, true, true⟩) ∧
    (∀ r : Int, test_read { w with seekSetResult := r } = test_read w) := by
  constructor
  · intro hma hop hse
    simp [test_read, hma, hop, hse]
  · intro r
    obtain ⟨ma, op, se, ss, rd, cl⟩ := w
    rfl

/-- Witness for C5 amended: a failed seek-to-end yields outcome 3 with the
descriptor closed and the buffer freed, and changing the reseek result alone
changes nothing. -/
theorem C5_witness :
    test_read w_seekend_fail = ⟨3, 0, 0, true, true, true, true⟩ ∧
    test_read { w_seekend_fail with seekSetResult := -5 } = test_read w_seekend_fail :=
  ⟨(C5_seek_failure w_seekend_fail).1 rfl rfl (by decide),
   (C5_seek_failure w_seekend_fail).2 (-5)⟩

/-- C8: on every exit path of the probe the buffer, once allocated, is
released, and the descriptor, once opened, has `close` called on it; the
`allocated`/`opened` events coincide with the success of `posix_memalign`
and `open`, so no probe call leaks a buffer or a descriptor. -/
theorem C8_no_leaks (w : ProbeWorld) :
    ((test_read w).allocated = true → (test_read w).freed = true) ∧
    ((test_read w).opened = true → (test_read w).closeCalled = true) ∧
    (test_read w).allocated = w.memalignOk ∧
    (test_read w).opened = (w.memalignOk && w.openOk) := by
  obtain ⟨ma, op, se, ss, rd, cl⟩ := w
  cases ma <;> cases op <;> simp [test_read]
  all_goals by_cases hse : se < 0
  all_goals simp [hse]
  all_goals rcases hloop : read_loop rd 0 0 (se.toNat / 512) with ⟨c, b, k⟩ | ⟨b, k⟩
  all_goals simp [hloop]
  all_goals cases cl <;> simp

/-- Witness for C8 on a failed `open`: the buffer was allocated and freed,
and the `allocated` event equals the success of `posix_memalign`. -/
theorem C8_witness :
    (test_read w_open_fail).freed = true ∧
    (test_read w_open_fail).allocated = w_open_fail.memalignOk :=
  ⟨(C8_no_leaks w_open_fail).1 rfl, (C8_no_leaks w_open_fail).2.2.1⟩

/-- C10: the probe's outcome code is always in 0..7 with the fixed mapping
0 success, 1 allocation failure, 2 open failure, 3 seek failure, 4 read
failure, 5 unexpected end-of-file, 6 short read, 7 close failure; in
particular the probe returns 0 exactly when every step succeeded. -/
theorem C10_outcome_codes (w : ProbeWorld) :
    (test_read w).code ≤ 7 ∧
    ((test_read w).code = 1 ↔ w.memalignOk = false) ∧
    ((test_read w).code = 2 ↔ w.memalignOk = true ∧ w.openOk = false) ∧
    ((test_read w).code = 3 ↔ w.memalignOk = true ∧ w.openOk = true ∧ w.seekEnd < 0) ∧
    ((test_read w).code = 4 → w.reads ((test_read w).readCalls - 1) < 0) ∧
    ((test_read w).code = 5 → w.reads ((test_read w).readCalls - 1) = 0) ∧
    ((test_read w).code = 6 →
      0 < w.reads ((test_read w).readCalls - 1) ∧
      w.reads ((test_read w).readCalls - 1) ≠ 512) ∧
    ((test_read w).code = 7 ↔ w.memalignOk = true ∧ w.openOk = true ∧ 0 ≤ w.seekEnd ∧
      (∀ j, j < w.seekEnd.toNat / 512 → w.reads j = 512) ∧ w.closeOk = false) ∧
    ((test_read w).code = 0 ↔ w.memalignOk = true ∧ w.openOk = true ∧ 0 ≤ w.seekEnd ∧
      (∀ j, j < w.seekEnd.toNat / 512 → w.reads j = 512) ∧ w.closeOk = true) := by
  obtain ⟨ma, op, se, ss, rd, cl⟩ := w
  cases ma with
  | false => simp [test_read]
  | true =>
  cases op with
  | false => simp [test_read]
  | true =>
  by_cases hse : se < 0
  · simp [test_read, hse, not_le.mpr hse]
  · have hse' : (0 : Int) ≤ se := not_lt.mp hse
    rcases hloop : read_loop rd 0 0 (se.toNat / 512) with ⟨c, b, k⟩ | ⟨b, k⟩
    · obtain ⟨hk1, hcls⟩ := read_loop_err_inv rd (se.toNat / 512) 0 0 c b k hloop
      have hnotall : ¬ ∀ j, j < se.toNat / 512 → rd j = 512 := by
        intro hall
        have := read_loop_ok_of_all rd (se.toNat / 512) 0 0 (fun j hj => hall (0 + j) (by omega))
        rw [hloop] at this
        exact LoopOut.noConfusion this
      simp only [test_read, hse, if_false, if_neg, hloop, not_true, Bool.not_eq_true]
      rcases hcls with ⟨hc, hr⟩ | ⟨hc, hr⟩ | ⟨hc, hr1, hr2⟩ <;> subst hc
      · simp [hse, hse', hnotall, hr]
      · simp [hse, hse', hnotall, hr]
      · simp [hse, hse', hnotall]
        exact ⟨hr1, hr2⟩
    · obtain ⟨hall, hb, hk⟩ := read_loop_done_inv rd (se.toNat / 512) 0 0 b k hloop
      have hall' : ∀ j, j < se.toNat / 512 → rd j = 512 := by
        intro j hj
        have := hall j hj
        simpa using this
      simp only [test_read, hse, hloop]
      cases cl <;> simp [hse, hse', hall'] <;> exact hall'

/-- Witness for C10: in the healthy 700-byte environment the success
equivalence yields outcome code 0. -/
theorem C10_witness : (test_read w_all_ok_700).code = 0 :=
  (C10_outcome_codes w_all_ok_700).2.2.2.2.2.2.2.2.mpr
    ⟨rfl, rfl, by decide, fun j hj => rfl, rfl⟩

/-! ### Claims about the monitor loop -/

/-- In debug mode an iteration never emits the heartbeat. -/
theorem heartbeat_not_mem_iter_debug (r : Nat) :
    Event.notifyHeartbeat ∉ loop_iter true r := by
  unfold loop_iter
  split_ifs <;> simp_all

/-- No iteration ever emits the ready notification. -/
theorem ready_not_mem_iter (d : Bool) (r : Nat) :
    Event.notifyReady ∉ loop_iter d r := by
  unfold loop_iter
  split_ifs <;> simp

/-- C1: in each monitor-loop iteration the heartbeat is sent if and only if
the probe outcome is success (code 0) and debug mode is off; on a failure
outcome only the failure log is emitted and the running flag is unchanged
(the loop stays `Running`); and in debug mode a whole run of the loop never
emits a heartbeat or a ready notification. -/
theorem C1_heartbeat_iff_success (d : Bool) (w : ProbeWorld) (flag : Bool) :
    (Event.notifyHeartbeat ∈ loop_iter d (test_read w).code ↔
      (test_read w).code = 0 ∧ d = false) ∧
    ((test_read w).code ≠ 0 →
      loop_iter d (test_read w).code = [Event.logFailure (test_read w).code] ∧
      (loop_step d flag w).1 = flag) ∧
    (∀ ws : List ProbeWorld,
      Event.notifyHeartbeat ∉ run_loop_events true ws ∧
      Event.notifyReady ∉ run_loop_events true ws) := by
  refine ⟨?_, ?_, ?_⟩
  · unfold loop_iter
    rcases Nat.eq_zero_or_pos (test_read w).code with h | h
    · cases d <;> simp [h]
    · have h' : (test_read w).code ≠ 0 := by omega
      simp [h']
  · intro h
    simp [loop_iter, loop_step, h]
  · intro ws
    constructor <;>
      · simp only [run_loop_events, startup_events, monitor_loop, List.mem_append,
          List.mem_flatten, List.mem_map, not_or]
        refine ⟨by simp, ?_⟩
        rintro ⟨l, ⟨w', _, rfl⟩, hmem⟩
        first
          | exact heartbeat_not_mem_iter_debug _ hmem
          | exact ready_not_mem_iter _ _ hmem

/-- Witness for C1 at a failing probe (allocation failure, code 1) with
debug off: the iteration emits only the failure log and leaves the running
flag true. -/
theorem C1_witness :
    loop_iter false (test_read w_alloc_fail).code =
      [Event.logFailure (test_read w_alloc_fail).code] ∧
    (loop_step false true w_alloc_fail).1 = true :=
  (C1_heartbeat_iff_success false w_alloc_fail true).2.1 (by decide)

/-! ### Claims about argument parsing -/

/-- `toInt32` is the identity on values already in the signed 32-bit
range. -/
theorem toInt32_eq_self (n : Int) (h1 : -2147483648 ≤ n) (h2 : n < 2147483648) :
    toInt32 n = n := by
  unfold toInt32
  omega

/-- C2 counterexample: with debug off and the supervisor reporting a
watchdog timeout of `T = 2^32` microseconds, the parsed interval is the
`int`-truncated `-2^31`, not `floor(T/2) = 2^31`: the source stores the
`uint64_t` quotient `watchdog_usec / 2` into the `int` `interval_us`. -/
theorem C2_counterexample :
    parse_args [Arg.file "x"] (some 4294967296) =
      ParseOut.ok ⟨some "x", -2147483648, false, false⟩ ∧
    ((-2147483648 : Int) ≠ ((4294967296 / 2 : Nat) : Int)) := by
  constructor
  · rfl
  · decide

/-- C2 amended: when debug mode is off and the supervisor reports a
watchdog timeout `T`, the parsed interval is `floor(T/2)` reduced to the
signed 32-bit range by wraparound, regardless of any user-supplied
interval; whenever `T < 2^32` — so that `floor(T/2)` fits in an `int` —
this equals `floor(T/2)` exactly. -/
theorem C2_watchdog_override (T : Nat) (args : List Arg) (c : Config)
    (hok : opt_loop initConfig args = ParseOut.ok c)
    (hf : c.test_file ≠ none) (hd : c.debug_mode = false) :
    parse_args args (some T) =
      ParseOut.ok { c with interval_us := toInt32 ((T / 2 : Nat) : Int) } ∧
    (T < 4294967296 → toInt32 ((T / 2 : Nat) : Int) = ((T / 2 : Nat) : Int)) := by
  constructor
  · unfold parse_args
    rw [hok]
    simp [hf, hd]
  · intro hT
    apply toInt32_eq_self
    · have : (0 : Int) ≤ ((T / 2 : Nat) : Int) := Int.ofNat_nonneg _
      omega
    · have : T / 2 < 2147483648 := by omega
      exact_mod_cast this

/-- Witness for C2 amended: a user-supplied interval of 500 ms is
overridden to half a 60-second watchdog timeout. -/
theorem C2_witness :
    parse_args [Arg.file "f", Arg.interval "500"] (some 60000000) =
      ParseOut.ok ⟨some "f", 30000000, false, false⟩ := by
  have h := C2_watchdog_override 60000000 [Arg.file "f", Arg.interval "500"]
    ⟨some "f", 500000, false, false⟩ (by decide) (by decide) rfl
  exact h.1

/-- C6 counterexample: the argument "3000000" is numeric and denotes a
positive value (3000000 ms), yet the parser rejects it as fatal — exit code
1 with no events — because `atoi("3000000") * 1000 = 3000000000` overflows
`int` and wraps to a negative value. -/
theorem C6_counterexample :
    atoi "3000000" = 3000000 ∧ (0 : Int) < 3000000 ∧
    parse_interval_arg "3000000" = none ∧
    main_run [Arg.file "f", Arg.interval "3000000"] none ⟨true, true, 512⟩ [] =
      ⟨1, [], 0⟩ := by
  refine ⟨by decide, by decide, by decide, by decide⟩

/-- `atoi` always yields a value in the signed 32-bit range. -/
theorem atoi_range (s : String) : -2147483648 ≤ atoi s ∧ atoi s < 2147483648 := by
  unfold atoi toInt32
  omega

/-- C6 amended: writing `v = atoi(s)` (the value of the string's leading
numeric prefix, 0 for fully non-numeric strings), the parser rejects the
argument whenever `-2147483 ≤ v ≤ 0` and accepts it with interval
`v * 1000` microseconds whenever `0 < v ≤ 2147483`; outside those bounds
acceptance is decided by the sign of `v * 1000` computed with 32-bit
wraparound, and any accepted argument stores exactly that wrapped value,
which is positive. -/
theorem C6_interval_validation (s : String) :
    (-2147483 ≤ atoi s → atoi s ≤ 0 → parse_interval_arg s = none) ∧
    (0 < atoi s → atoi s ≤ 2147483 → parse_interval_arg s = some (atoi s * 1000)) ∧
    (∀ i : Int, parse_interval_arg s = some i →
      0 < i ∧ i = toInt32 (atoi s * 1000)) := by
  refine ⟨?_, ?_, ?_⟩
  · intro h1 h2
    have hid : toInt32 (atoi s * 1000) = atoi s * 1000 :=
      toInt32_eq_self _ (by omega) (by omega)
    unfold parse_interval_arg
    rw [hid]
    simp
    omega
  · intro h1 h2
    have hid : toInt32 (atoi s * 1000) = atoi s * 1000 :=
      toInt32_eq_self _ (by omega) (by omega)
    unfold parse_interval_arg
    rw [hid]
    simp
    omega
  · intro i h
    unfold parse_interval_arg at h
    by_cases hle : toInt32 (atoi s * 1000) ≤ 0
    · simp [hle] at h
    · simp [hle] at h
      subst h
      exact ⟨by omega, rfl⟩

/-- Witness for C6 amended: "50" is accepted as 50000 microseconds and
"abc" (atoi value 0) is rejected. -/
theorem C6_witness :
    parse_interval_arg "50" = some 50000 ∧ parse_interval_arg "abc" = none := by
  constructor
  · have h := (C6_interval_validation "50").2.1 (by decide) (by decide)
    simpa using h
  · exact (C6_interval_validation "abc").1 (by decide) (by decide)

/-- C7: for a target path that cannot be stat'ed, is not a regular file, or
is empty, `check_test_file` fails, and (for any run whose arguments parsed
successfully) the process exits with code 1 having emitted no event and run
no monitor-loop iteration — in particular no probe and no ready
notification. -/
theorem C7_precondition_failure (st : FileStat)
    (h : st.statOk = false ∨ st.isReg = false ∨ st.size = 0) :
    check_test_file st = -1 ∧
    ∀ (args : List Arg) (wd : Option Nat) (worlds : List ProbeWorld) (c : Config),
      parse_args args wd = ParseOut.ok c →
      main_run args wd st worlds = ⟨1, [], 0⟩ := by
  have hchk : check_test_file st = -1 := by
    unfold check_test_file
    rcases h with h | h | h <;> simp [h]
  refine ⟨hchk, ?_⟩
  intro args wd worlds c hparse
  unfold main_run
  rw [hparse]
  simp [hchk]

/-- Witness for C7 at a path that cannot be stat'ed: exit code 1 with no
events and no iterations, despite a pending healthy probe world. -/
theorem C7_witness :
    check_test_file ⟨false, true, 5⟩ = -1 ∧
    main_run [Arg.file "f"] none ⟨false, true, 5⟩ [w_all_ok_700] = ⟨1, [], 0⟩ := by
  have h := C7_precondition_failure ⟨false, true, 5⟩ (Or.inl rfl)
  exact ⟨h.1, h.2 [Arg.file "f"] none [w_all_ok_700] ⟨some "f", 10000, false, false⟩
    (by decide)⟩

/-- Unfolding of the option loop at a `--file` token. -/
theorem opt_loop_file (c : Config) (p : String) (rest : List Arg) :
    opt_loop c (Arg.file p :: rest) = opt_loop { c with test_file := some p } rest := rfl

/-- Unfolding of the option loop at an `--interval` token. -/
theorem opt_loop_interval (c : Config) (s : String) (rest : List Arg) :
    opt_loop c (Arg.interval s :: rest) =
      match parse_interval_arg s with
      | none => ParseOut.fail
      | some iv => opt_loop { c with interval_us := iv } rest := rfl

/-- Unfolding of the option loop at a `--verbose` token. -/
theorem opt_loop_verbose (c : Config) (rest : List Arg) :
    opt_loop c (Arg.verbose :: rest) = opt_loop { c with verbose_mode := true } rest := rfl

/-- Unfolding of the option loop at a `--debug` token. -/
theorem opt_loop_debug (c : Config) (rest : List Arg) :
    opt_loop c (Arg.debug :: rest) =
      opt_loop { c with debug_mode := true, verbose_mode := true } rest := rfl

/-- Unfolding of the option loop at a `--help` token: immediate help exit. -/
theorem opt_loop_help (c : Config) (rest : List Arg) :
    opt_loop c (Arg.help :: rest) = ParseOut.exitHelp := rfl

/-- Unfolding of the option loop at an unrecognized token. -/
theorem opt_loop_unknown (c : Config) (rest : List Arg) :
    opt_loop c (Arg.unknown :: rest) = ParseOut.fail := rfl

/-- If the option loop accepts a prefix, processing a longer list continues
from the resulting configuration. -/
theorem opt_loop_append_ok :
    ∀ (l1 : List Arg) (c c' : Config) (l2 : List Arg),
      opt_loop c l1 = ParseOut.ok c' →
      opt_loop c (l1 ++ l2) = opt_loop c' l2 := by
  intro l1
  induction l1 with
  | nil =>
    intro c c' l2 h
    obtain rfl := ParseOut.ok.inj h
    rfl
  | cons a l1 ih =>
    intro c c' l2 h
    cases a with
    | file p =>
      rw [opt_loop_file] at h
      rw [List.cons_append, opt_loop_file]
      exact ih _ _ _ h
    | interval s =>
      rw [opt_loop_interval] at h
      rw [List.cons_append, opt_loop_interval]
      rcases hpi : parse_interval_arg s with _ | iv <;> rw [hpi] at h
      · exact ParseOut.noConfusion h
      · exact ih _ _ _ h
    | verbose =>
      rw [opt_loop_verbose] at h
      rw [List.cons_append, opt_loop_verbose]
      exact ih _ _ _ h
    | debug =>
      rw [opt_loop_debug] at h
      rw [List.cons_append, opt_loop_debug]
      exact ih _ _ _ h
    | help =>
      rw [opt_loop_help] at h
      exact ParseOut.noConfusion h
    | unknown =>
      rw [opt_loop_unknown] at h
      exact ParseOut.noConfusion h

/-- C9 counterexample: the argument list `-i 0 -h` contains `--help`, yet
the run exits with code 1, not 0: the invalid interval before the help flag
is fatal and the help flag is never reached. -/
theorem C9_counterexample :
    Arg.help ∈ [Arg.interval "0", Arg.help] ∧
    main_run [Arg.interval "0", Arg.help] none ⟨true, true, 512⟩ [] = ⟨1, [], 0⟩ := by
  refine ⟨by decide, by decide⟩

/-- C9 amended: whenever the parser reaches a `--help` (`-h`) token — that
is, every option before the first help token is itself accepted — the run
exits 0 immediately with no event and no iteration, bypassing the mandatory
`--file` check, the supervisor watchdog query, and everything after the
flag; an option rejected before the flag is reached, however, still exits
nonzero. -/
theorem C9_help_exits_zero (pre post : List Arg) (c : Config)
    (hok : opt_loop initConfig pre = ParseOut.ok c) :
    opt_loop initConfig (pre ++ Arg.help :: post) = ParseOut.exitHelp ∧
    ∀ (wd : Option Nat) (st : FileStat) (worlds : List ProbeWorld),
      main_run (pre ++ Arg.help :: post) wd st worlds = ⟨0, [], 0⟩ := by
  have hl : opt_loop initConfig (pre ++ Arg.help :: post) = ParseOut.exitHelp := by
    rw [opt_loop_append_ok pre initConfig c (Arg.help :: post) hok]
    rfl
  refine ⟨hl, ?_⟩
  intro wd st worlds
  unfold main_run parse_args
  rw [hl]

/-- Witness for C9 amended: `-i 25 --help` followed by an unrecognized
option exits 0, although no `--file` was given and the trailing option
would otherwise be fatal. -/
theorem C9_witness :
    main_run [Arg.interval "25", Arg.help, Arg.unknown] none ⟨true, true, 5⟩ [] =
      ⟨0, [], 0⟩ := by
  have h := C9_help_exits_zero [Arg.interval "25"] [Arg.unknown]
    ⟨none, 25000, false, false⟩ (by decide)
  exact h.2 none ⟨true, true, 5⟩ []

end DiskWatchdog
